import Mathlib

/-!
# Verification of the telemetry collector (performance monitoring utilities)

Shallow embedding of the two performance-monitor variants of the repository:

* `PerfMon` embeds the desktop `PerformanceMonitor` class
  (`src/unnamed/part_009`, lines 452-917): the metric store mutated by
  `reportMetric`, the lifecycle methods `init` / `destroy`, the custom
  timing wrappers `measure` / `measureAsync`, the resource-timing handler,
  the CLS observer callback and the analytics reporter `sendToAnalytics`.
* `MobilePerfMon` embeds the mobile `MobilePerformanceMonitor` class
  (`src/unnamed/part_011`): its `init`, `destroy`, `logMetric` store path
  and the scorer `getPerformanceScore` / `getLCPScore` / `getFIDScore` /
  `getCLSScore` / `getRecommendations`.
* `HeapModel` refines the desktop store with explicit array references so
  that the aliasing behaviour of `getMetrics` (a shallow `{...spread}`
  copy whose per-key arrays are shared) is expressible.

JavaScript numbers that may be non-finite or `undefined` are embedded as
`JsVal`; machine-level floating point is not needed by any claim because
every computation involved is exact on the inputs considered, so values are
rationals.  JS exceptions that the source catches are embedded by returning
the state the `catch` observes; a throwing operation whose exception would
escape is embedded with `Option`.
-/

set_option maxRecDepth 4000
set_option autoImplicit false

/-! ## Generic bounded series operations

The source bounds every series with the idiom
`if (arr.length >= cap) arr.shift(); arr.push(x);`
(`shift` removes the first element, `push` appends).  `boundedPush` is that
idiom as a pure function, and `lastN cap l` is the suffix of the most
recent `cap` elements.
-/

/-- The suffix of the last `n` elements of `l` (all of `l` if it is shorter). -/
def lastN {α : Type} (n : Nat) (l : List α) : List α :=
  l.drop (l.length - n)

/-- `if (arr.length >= cap) arr.shift(); arr.push(x)` as a pure function:
drop the oldest element if the series is at capacity, then append. -/
def boundedPush {α : Type} (cap : Nat) (l : List α) (x : α) : List α :=
  (if cap ≤ l.length then l.drop 1 else l) ++ [x]

/-! ## JavaScript values

Metric samples carry JavaScript numbers that may be `NaN`, `Infinity`,
`-Infinity` or `undefined`; finite numbers are embedded as rationals. -/

/-- A JavaScript value as it can reach the record path: a finite number, a
non-finite number, or `undefined`. -/
inductive JsVal : Type
  | num (q : ℚ)
  | nan
  | inf
  | ninf
  | undef
  deriving DecidableEq, Repr

/-- JavaScript truthiness of a `JsVal`: `0`, `NaN` and `undefined` are falsy,
every other number is truthy. -/
def jsTruthy : JsVal → Bool
  | .num q => q ≠ 0
  | .nan => false
  | .inf => true
  | .ninf => true
  | .undef => false

namespace PerfMon

/-! ## Desktop `PerformanceMonitor` (src/unnamed/part_009)

The `metrics` field of the class is a plain JS object whose properties are
either arrays of `{value, timestamp}` samples (written by `reportMetric`)
or plain numbers (written by `measure` / `measureAsync`, which assign
`this.metrics[name] = duration`).  It is embedded as an association list
from metric name to a `MetricEntry`. -/

/-- One `{ value, timestamp: Date.now() }` record pushed by `reportMetric`. -/
structure Sample where
  value : JsVal
  timestamp : ℤ
  deriving DecidableEq, Repr

/-- A property of the `this.metrics` object: a bounded series array or a
plain scalar number. -/
inductive MetricEntry : Type
  | series (l : List Sample)
  | scalar (v : JsVal)
  deriving DecidableEq, Repr

/-- Truthiness of `this.metrics[name]`: a missing property is falsy,
an array (even empty) is truthy, a number is truthy iff nonzero and not
`NaN`. -/
def entryTruthy : Option MetricEntry → Bool
  | none => false
  | some (.series _) => true
  | some (.scalar v) => jsTruthy v

/-- Property read on the metrics object (`this.metrics[name]`). -/
def lookupEntry : List (String × MetricEntry) → String → Option MetricEntry
  | [], _ => none
  | (k, v) :: rest, n => if k = n then some v else lookupEntry rest n

/-- Property write on the metrics object (`this.metrics[name] = v`). -/
def setEntry : List (String × MetricEntry) → String → MetricEntry → List (String × MetricEntry)
  | [], n, v => [(n, v)]
  | (k, w) :: rest, n, v => if k = n then (n, v) :: rest else (k, w) :: setEntry rest n v

/-- Abstract identity of a `PerformanceObserver` subscription created by one
of the setup methods. -/
inductive ObsKind : Type
  | lcp
  | fid
  | cls
  | navigation
  | paint
  | resource
  deriving DecidableEq, Repr

/-- Observable instance state of the `PerformanceMonitor` class: the fields
assigned in its constructor. -/
structure MonitorState where
  metrics : List (String × MetricEntry)
  observers : List ObsKind
  cleanupFunctions : List Nat
  memoryCheckInterval : Option Nat
  frameRateMonitor : Option Nat
  isInitialized : Bool
  deriving DecidableEq, Repr

/-- The state built by the constructor: every collection empty, no timers,
not yet set up. -/
def emptyMonitor : MonitorState :=
  { metrics := []
    observers := []
    cleanupFunctions := []
    memoryCheckInterval := none
    frameRateMonitor := none
    isInitialized := false }

/-- `reportMetric(name, value)` (part_009 lines 686-722).  The body runs
inside `try { ... } catch`:

* `if (!this.metrics[name]) this.metrics[name] = [];` — a falsy entry
  (missing, `0`, `NaN`) is replaced by a fresh array;
* `if (this.metrics[name].length >= 100) this.metrics[name].shift();`
  then `this.metrics[name].push({value, timestamp: Date.now()})` — the
  bounded push;
* when the entry is a truthy non-array (a scalar written by `measure`),
  `.length` is `undefined` (so no shift) and `.push` raises a `TypeError`
  that the `catch` swallows, leaving the state unchanged.

`Date.now()` is passed in as `now`; the `gtag` call, the development log
and the fire-and-forget `sendToAnalytics` call do not touch the store and
are modelled separately (`sendToAnalytics` below). -/
def reportMetric (name : String) (value : JsVal) (now : ℤ) (s : MonitorState) :
    MonitorState :=
  match lookupEntry s.metrics name with
  | some (.series l) =>
      { s with metrics := setEntry s.metrics name (.series (boundedPush 100 l ⟨value, now⟩)) }
  | some (.scalar v) =>
      if jsTruthy v then s
      else { s with metrics := setEntry s.metrics name (.series (boundedPush 100 [] ⟨value, now⟩)) }
  | none =>
      { s with metrics := setEntry s.metrics name (.series (boundedPush 100 [] ⟨value, now⟩)) }

/-- The series stored under `k`, or `[]` when `k` holds no series. -/
def seriesAt (s : MonitorState) (k : String) : List Sample :=
  match lookupEntry s.metrics k with
  | some (.series l) => l
  | _ => []

/-- The entry under `k` is absent, a series, or a falsy scalar — i.e. not a
truthy scalar, on which `reportMetric` would swallow a `TypeError` instead
of pushing. -/
def entryOk (s : MonitorState) (k : String) : Prop :=
  match lookupEntry s.metrics k with
  | some (.scalar v) => jsTruthy v = false
  | _ => True

/-- A sequence of `reportMetric` calls on the same key, oldest first. -/
def recordAll (k : String) (vs : List (JsVal × ℤ)) (s : MonitorState) :
    MonitorState :=
  vs.foldl (fun acc p => reportMetric k p.1 p.2 acc) s

/-! ### Resource-timing handler (part_009 lines 582-617)

The resource observer callback filters entries to `img`/`video` initiator
types and pushes `{name, type, duration, size}` records into
`this.metrics.resources`, keeping only the last 50. -/

/-- A `PerformanceResourceTiming` notification as the callback reads it.
`transferSize` is `Option` because the host may not provide it
(`entry.transferSize || 0`). -/
structure PerfResourceEntry where
  name : String
  initiatorType : String
  duration : ℚ
  transferSize : Option ℚ
  deriving DecidableEq, Repr

/-- A record stored in `this.metrics.resources`. -/
structure ResourceRec where
  name : String
  type : String
  duration : ℚ
  size : ℚ
  deriving DecidableEq, Repr

/-- `entry.transferSize || 0`: a missing, zero or `NaN` transfer size
becomes `0`. -/
def mkResourceRec (e : PerfResourceEntry) : ResourceRec :=
  { name := e.name
    type := e.initiatorType
    duration := e.duration
    size := match e.transferSize with
      | some q => q
      | none => 0 }

/-- The filter in the resource callback:
`entry.initiatorType === 'img' || entry.initiatorType === 'video'`. -/
def isImgOrVideo (e : PerfResourceEntry) : Bool :=
  e.initiatorType = "img" || e.initiatorType = "video"

/-- One resource notification applied to the stored `resources` array:
non-image/video entries are skipped, matching entries are pushed with the
50-entry bound. -/
def handleResourceEntry (l : List ResourceRec) (e : PerfResourceEntry) :
    List ResourceRec :=
  if isImgOrVideo e then boundedPush 50 l (mkResourceRec e) else l

/-! ### CLS observer callback (part_009 lines 514-531)

The layout-shift observer keeps a closure variable `clsValue`; for each
entry of a notification batch with `hadRecentInput` false it adds
`entry.value`, assigns `this.metrics.cls` and reports `CLS`; flagged
entries are skipped entirely. -/

/-- A `layout-shift` performance entry as the callback reads it. -/
structure LayoutShiftEntry where
  value : ℚ
  hadRecentInput : Bool
  deriving DecidableEq, Repr

/-- The running-total update alone: skip flagged entries, otherwise add the
shift value. -/
def clsStep (cls : ℚ) (e : LayoutShiftEntry) : ℚ :=
  if e.hadRecentInput then cls else cls + e.value

/-- One entry of the CLS callback on the pair (closure `clsValue`, monitor
state): a flagged entry does nothing; otherwise the total grows, is written
to `this.metrics.cls`, and `reportMetric('CLS', clsValue)` runs. -/
def clsEntryStep (now : ℤ) (p : ℚ × MonitorState) (e : LayoutShiftEntry) :
    ℚ × MonitorState :=
  if e.hadRecentInput then p
  else
    let c := p.1 + e.value
    let s1 := { p.2 with metrics := setEntry p.2.metrics "cls" (.scalar (.num c)) }
    (c, reportMetric "CLS" (.num c) now s1)

/-- The CLS observer callback over one batch of entries. -/
def clsCallback (now : ℤ) (p : ℚ × MonitorState) (entries : List LayoutShiftEntry) :
    ℚ × MonitorState :=
  entries.foldl (clsEntryStep now) p

/-! ### Lifecycle: `init` (lines 463-480) and `destroy` (lines 827-870)

`init` is guarded by `this.isInitialized`; otherwise it runs the five setup
methods and sets the flag.  Each setup method is capability-gated on host
APIs, abstracted by `HostEnv`.  `destroy` disconnects every observer,
clears the timers, runs the cleanup closures and resets every field; its
side effects are returned as a trace so that the second call can be seen to
do nothing. -/

/-- Host capabilities consulted by the setup methods:
`'PerformanceObserver' in window`, the React internals hook, and
`'memory' in performance`. -/
structure HostEnv where
  performanceObserver : Bool
  reactInternals : Bool
  memoryApi : Bool
  deriving DecidableEq, Repr

/-- `setupWebVitals`: with `PerformanceObserver` present, subscribes the
LCP, FID and CLS observers. -/
def setupWebVitals (env : HostEnv) (s : MonitorState) : MonitorState :=
  if env.performanceObserver then
    { s with observers := s.observers ++ [.lcp, .fid, .cls] }
  else s

/-- `setupPerformanceObserver`: navigation-timing and paint-timing
observers. -/
def setupPerformanceObserver (env : HostEnv) (s : MonitorState) : MonitorState :=
  if env.performanceObserver then
    { s with observers := s.observers ++ [.navigation, .paint] }
  else s

/-- `setupResourceTiming`: the resource observer. -/
def setupResourceTiming (env : HostEnv) (s : MonitorState) : MonitorState :=
  if env.performanceObserver then
    { s with observers := s.observers ++ [.resource] }
  else s

/-- `setupUserTiming` / `monitorReactPerformance`: when the React internals
hook exists, the patched `performWork` restore closure is pushed onto
`cleanupFunctions`. -/
def setupUserTiming (env : HostEnv) (s : MonitorState) : MonitorState :=
  if env.reactInternals then
    { s with cleanupFunctions := s.cleanupFunctions ++ [0] }
  else s

/-- `setupMemoryMonitoring`: with `performance.memory` present, starts the
30-second polling interval and stores its handle. -/
def setupMemoryMonitoring (env : HostEnv) (s : MonitorState) : MonitorState :=
  if env.memoryApi then { s with memoryCheckInterval := some 0 } else s

/-- `init()`: `if (this.isInitialized) return;` then the five setup calls
and `this.isInitialized = true` (the setups are total in the model, so the
`catch` branch that would leave the flag unset is unreachable). -/
def init (env : HostEnv) (s : MonitorState) : MonitorState :=
  if s.isInitialized then s
  else
    { setupMemoryMonitoring env
        (setupUserTiming env
          (setupResourceTiming env
            (setupPerformanceObserver env
              (setupWebVitals env s)))) with
      isInitialized := true }

/-- A side effect performed by `destroy()`. -/
inductive DestroyEffect : Type
  | disconnect (o : ObsKind)
  | clearMemoryInterval
  | cancelFrame
  | runCleanup (i : Nat)
  deriving DecidableEq, Repr

/-- `destroy()` with its effect trace: disconnect each observer, clear the
interval and animation-frame handles when set, run each cleanup closure,
then reset every field (`observers = []`, `cleanupFunctions = []`,
`metrics = {}`, `isInitialized = false`).  Every risky call is inside its
own `try`/`catch`, so the method never throws. -/
def destroyRun (s : MonitorState) : MonitorState × List DestroyEffect :=
  (({ metrics := []
      observers := []
      cleanupFunctions := []
      memoryCheckInterval := none
      frameRateMonitor := none
      isInitialized := false } : MonitorState),
    s.observers.map DestroyEffect.disconnect
      ++ (match s.memoryCheckInterval with
          | some _ => [DestroyEffect.clearMemoryInterval]
          | none => [])
      ++ (match s.frameRateMonitor with
          | some _ => [DestroyEffect.cancelFrame]
          | none => [])
      ++ s.cleanupFunctions.map DestroyEffect.runCleanup)

/-- The state left by `destroy()`. -/
def destroy (s : MonitorState) : MonitorState :=
  (destroyRun s).1

/-! ### `measure` / `measureAsync` (lines 803-824)

`measure(name, fn)` runs `fn`, assigns the plain number
`this.metrics[name] = duration`, calls `reportMetric(name, duration)` and
returns `fn`'s result.  The clock is abstracted: the measured duration and
the value `fn` returns are inputs of the model. -/

/-- `measure(name, fn)`: the wrapped call returned `result` after
`duration` milliseconds. -/
def measure {α : Type} (name : String) (duration : ℚ) (result : α)
    (now : ℤ) (s : MonitorState) : α × MonitorState :=
  let s1 := { s with metrics := setEntry s.metrics name (.scalar (.num duration)) }
  (result, reportMetric name (.num duration) now s1)

/-- `measureAsync(name, fn)`: identical store behaviour, with `fn` awaited. -/
def measureAsync {α : Type} (name : String) (duration : ℚ) (result : α)
    (now : ℤ) (s : MonitorState) : α × MonitorState :=
  measure name duration result now s

/-! ### Reporter: `sendToAnalytics` (lines 725-762)

The delivery builds the JSON payload, wraps `fetch` in an `AbortController`
aborted by a 5000 ms `setTimeout`, and swallows every failure in its
`catch`, logging one warning unless the error is the timeout's
`AbortError`.  The response status is never inspected.  The remote call is
abstracted as `ReporterEnv.fetchResult`, a function of the payload and the
timeout budget. -/

/-- The `navigator.connection` fields copied into the payload. -/
structure ConnectionInfo where
  effectiveType : String
  downlink : ℚ
  rtt : ℚ
  deriving DecidableEq, Repr

/-- The JSON document posted to `/api/analytics/performance`. -/
structure AnalyticsPayload where
  metric : String
  value : JsVal
  timestampIso : String
  url : String
  userAgent : String
  viewport : String
  connection : Option ConnectionInfo
  deriving DecidableEq, Repr

/-- Outcome of the awaited `fetch`: a resolved response with some status
code (2xx or not — the code never looks), or a rejection carrying the
error name (`"AbortError"` when the 5 s timeout fired). -/
inductive FetchOutcome : Type
  | success (status : Nat)
  | failure (errName : String)
  deriving DecidableEq, Repr

/-- Ambient inputs of one delivery: the payload fields read from the page
plus the behaviour of the network, as a function of the payload and of the
abort timeout in milliseconds. -/
structure ReporterEnv where
  nowIso : String
  url : String
  userAgent : String
  viewport : String
  connection : Option ConnectionInfo
  fetchResult : AnalyticsPayload → Nat → FetchOutcome

/-- The `setTimeout(() => controller.abort(), 5000)` budget. -/
def analyticsTimeoutMs : Nat := 5000

/-- `sendToAnalytics(name, value)`: returns the monitor state after the
delivery settles together with the warnings logged.  Success (any status)
logs nothing; a rejection logs one warning unless it is the `AbortError`
raised by the timeout. -/
def sendToAnalytics (name : String) (value : JsVal) (env : ReporterEnv)
    (s : MonitorState) : MonitorState × List String :=
  let data : AnalyticsPayload :=
    { metric := name
      value := value
      timestampIso := env.nowIso
      url := env.url
      userAgent := env.userAgent
      viewport := env.viewport
      connection := env.connection }
  match env.fetchResult data analyticsTimeoutMs with
  | .success _ => (s, [])
  | .failure errName =>
      if errName = "AbortError" then (s, [])
      else (s, ["Failed to send performance data"])

end PerfMon

namespace MobilePerfMon

/-! ## Mobile `MobilePerformanceMonitor` (src/unnamed/part_011)

Its `metrics` object mixes lowercase scalar vitals (`metrics.lcp`,
`metrics.fid`, `metrics.cls`, written directly by the observer callbacks),
structured records (`metrics.network`, set at setup), and uppercase series
(`metrics['LCP']`, ... written by `logMetric` with a 50-entry bound).  The
scalar and series keys never collide ('lcp' vs 'LCP'). -/

/-- The `navigator.connection` snapshot stored under `metrics.network`. -/
structure NetInfo where
  effectiveType : String
  downlink : ℚ
  rtt : ℚ
  saveData : Bool
  deriving DecidableEq, Repr

/-- The `deviceInfo` block attached to every `logMetric` record. -/
structure DeviceInfo where
  isLowEnd : Bool
  isReducedMotion : Bool
  userAgent : String
  platform : String
  language : String
  deriving DecidableEq, Repr

/-- One record pushed by `logMetric`:
`{ name, value, timestamp, deviceInfo }`. -/
structure MobSample where
  name : String
  value : JsVal
  timestamp : ℤ
  deviceInfo : DeviceInfo
  deriving DecidableEq, Repr

/-- A property of the mobile `this.metrics` object. -/
inductive MEntry : Type
  | scalar (q : ℚ)
  | series (l : List MobSample)
  | net (c : NetInfo)
  deriving DecidableEq, Repr

/-- Property read on the mobile metrics object. -/
def lookupM : List (String × MEntry) → String → Option MEntry
  | [], _ => none
  | (k, v) :: rest, n => if k = n then some v else lookupM rest n

/-- Property write on the mobile metrics object. -/
def setM : List (String × MEntry) → String → MEntry → List (String × MEntry)
  | [], n, v => [(n, v)]
  | (k, w) :: rest, n, v => if k = n then (n, v) :: rest else (k, w) :: setM rest n v

/-- Truthiness of a mobile metrics property (`!this.metrics[name]`). -/
def mTruthy : Option MEntry → Bool
  | none => false
  | some (.scalar q) => q ≠ 0
  | some (.series _) => true
  | some (.net _) => true

/-- Core Web Vitals observers subscribed by `setupPerformanceObserver`. -/
inductive MobObs : Type
  | lcp
  | fid
  | cls
  deriving DecidableEq, Repr

/-- Observable instance state of `MobilePerformanceMonitor`: the fields
assigned in its constructor.  `isLowEndDevice` / `isReducedMotion` are the
cached-once capability hints (`detectLowEndDevice` inspects
`deviceMemory`, `hardwareConcurrency`, the connection type and the
viewport width; they are inputs of the model). -/
structure MobState where
  metrics : List (String × MEntry)
  observers : List MobObs
  cleanupFunctions : List Nat
  memoryCheckInterval : Option Unit
  batteryCheckInterval : Option Unit
  intersectionObserver : Option Unit
  isLowEndDevice : Bool
  isReducedMotion : Bool
  deriving DecidableEq, Repr

/-- A fresh mobile monitor before `init` runs (constructor field values,
with the capability flags as parameters). -/
def freshMob (lowEnd reducedMotion : Bool) : MobState :=
  { metrics := []
    observers := []
    cleanupFunctions := []
    memoryCheckInterval := none
    batteryCheckInterval := none
    intersectionObserver := none
    isLowEndDevice := lowEnd
    isReducedMotion := reducedMotion }

/-- Host capabilities consulted by the mobile setup methods.
`connection` carries the snapshot copied into `metrics.network` when
`'connection' in navigator`. -/
structure MobEnv where
  performanceObserver : Bool
  connection : Option NetInfo
  getBattery : Bool
  memoryApi : Bool
  intersectionApi : Bool
  deriving DecidableEq, Repr

/-- `setupPerformanceObserver` (part_011 lines 52-102): subscribes the
LCP, FID and CLS observers when `PerformanceObserver` exists.  There is no
initialization guard anywhere on this path. -/
def setupPerformanceObserver (env : MobEnv) (s : MobState) : MobState :=
  if env.performanceObserver then
    { s with observers := s.observers ++ [.lcp, .fid, .cls] }
  else s

/-- `setupNetworkObserver`: stores the connection snapshot and registers a
change listener whose removal closure lands in `cleanupFunctions`. -/
def setupNetworkObserver (env : MobEnv) (s : MobState) : MobState :=
  match env.connection with
  | some c =>
      { s with metrics := setM s.metrics "network" (.net c)
               cleanupFunctions := s.cleanupFunctions ++ [0] }
  | none => s

/-- `setupBatteryObserver`: `navigator.getBattery()` returns a promise;
nothing is mutated synchronously during `init`, the listeners are attached
in a later promise tick.  Its synchronous effect is therefore the
identity. -/
def setupBatteryObserver (_env : MobEnv) (s : MobState) : MobState :=
  s

/-- `setupMemoryObserver`: starts the 30 s heap-usage polling interval when
`performance.memory` exists. -/
def setupMemoryObserver (env : MobEnv) (s : MobState) : MobState :=
  if env.memoryApi then { s with memoryCheckInterval := some () } else s

/-- `setupIntersectionObserver`: creates (but does not attach) the
viewport-visibility observer. -/
def setupIntersectionObserver (env : MobEnv) (s : MobState) : MobState :=
  if env.intersectionApi then { s with intersectionObserver := some () } else s

/-- `init()` (part_011 lines 43-49): runs the five setup methods,
unconditionally — unlike the desktop variant there is no
`isInitialized` guard. -/
def init (env : MobEnv) (s : MobState) : MobState :=
  setupIntersectionObserver env
    (setupMemoryObserver env
      (setupBatteryObserver env
        (setupNetworkObserver env
          (setupPerformanceObserver env s))))

/-- `logMetric(name, value)` (part_011 lines 219-258): builds the
`{name, value, timestamp, deviceInfo}` record, creates the series if the
entry is falsy, and pushes with the 50-entry bound.  `logMetric` has no
`try`/`catch`: on a truthy non-array entry the `.push` `TypeError` would
escape, so that branch is `none`.  (Reachable call sites use the uppercase
metric names, which never collide with the scalar keys.)  The development
log, the production `gtag` call and `checkPerformanceWarnings` do not
mutate the store. -/
def logMetric (name : String) (value : JsVal) (now : ℤ)
    (userAgent platform language : String) (s : MobState) : Option MobState :=
  let metric : MobSample :=
    { name := name
      value := value
      timestamp := now
      deviceInfo :=
        { isLowEnd := s.isLowEndDevice
          isReducedMotion := s.isReducedMotion
          userAgent := userAgent
          platform := platform
          language := language } }
  match lookupM s.metrics name with
  | some (.series l) =>
      some { s with metrics := setM s.metrics name (.series (boundedPush 50 l metric)) }
  | some (.scalar q) =>
      if q ≠ 0 then none
      else some { s with metrics := setM s.metrics name (.series (boundedPush 50 [] metric)) }
  | some (.net _) => none
  | none =>
      some { s with metrics := setM s.metrics name (.series (boundedPush 50 [] metric)) }

/-- `destroy()` (part_011 lines 419-472): disconnects the observers and the
intersection observer, clears both interval handles, runs the cleanup
closures, and resets `observers`, `cleanupFunctions` and `metrics`.  The
`intersectionObserver` field itself is never reset (only disconnected), and
the capability flags survive. -/
def destroy (s : MobState) : MobState :=
  { s with metrics := []
           observers := []
           cleanupFunctions := []
           memoryCheckInterval := none
           batteryCheckInterval := none }

/-! ### Scorer (part_011 lines 341-416)

`getPerformanceScore` is a pure function of the scalar vitals: each
per-vital score reads `this.metrics.X || 0` — an absent vital scores as
the value `0` — and the overall score averages the three per-vital scores
(`Object.keys(scores).length` is always 3). -/

/-- `this.metrics[k] || 0` for a scalar vital: the stored number, or `0`
when the property is absent (or `0`). -/
def scalarOrZero (s : MobState) (k : String) : ℚ :=
  match lookupM s.metrics k with
  | some (.scalar q) => q
  | _ => 0

/-- `getLCPScore`: 100 / 75 / 50 / 25 at the 2500 / 4000 / 6000 ms
breakpoints. -/
def getLCPScore (s : MobState) : ℚ :=
  let lcp := scalarOrZero s "lcp"
  if lcp ≤ 2500 then 100
  else if lcp ≤ 4000 then 75
  else if lcp ≤ 6000 then 50
  else 25

/-- `getFIDScore`: 100 / 75 / 50 / 25 at the 100 / 300 / 500 ms
breakpoints. -/
def getFIDScore (s : MobState) : ℚ :=
  let fid := scalarOrZero s "fid"
  if fid ≤ 100 then 100
  else if fid ≤ 300 then 75
  else if fid ≤ 500 then 50
  else 25

/-- `getCLSScore`: 100 / 75 / 50 / 25 at the 0.1 / 0.25 / 0.5
breakpoints. -/
def getCLSScore (s : MobState) : ℚ :=
  let cls := scalarOrZero s "cls"
  if cls ≤ 1/10 then 100
  else if cls ≤ 1/4 then 75
  else if cls ≤ 1/2 then 50
  else 25

/-- `getRecommendations(scores)`: one textual hint per vital scoring below
75, plus the low-end-device hint. -/
def getRecommendations (slcp sfid scls : ℚ) (lowEnd : Bool) : List String :=
  (if slcp < 75 then ["Optimize images and reduce render-blocking resources"] else [])
    ++ (if sfid < 75 then ["Reduce JavaScript execution time and break up long tasks"] else [])
    ++ (if scls < 75 then ["Fix layout shifts by reserving space for dynamic content"] else [])
    ++ (if lowEnd then ["Consider implementing progressive enhancement for low-end devices"] else [])

/-- `Math.round`: round half toward positive infinity. -/
def jsRound (q : ℚ) : ℤ :=
  ⌊q + 1/2⌋

/-- The object returned by `getPerformanceScore`. -/
structure PerformanceScoreResult where
  overall : ℤ
  lcp : ℚ
  fid : ℚ
  cls : ℚ
  isLowEndDevice : Bool
  recommendations : List String
  deriving DecidableEq, Repr

/-- `getPerformanceScore()`: the three per-vital scores, their arithmetic
mean over `Object.keys(scores).length = 3` rounded with `Math.round`, the
cached device flag and the hint list. -/
def getPerformanceScore (s : MobState) : PerformanceScoreResult :=
  let slcp := getLCPScore s
  let sfid := getFIDScore s
  let scls := getCLSScore s
  { overall := jsRound ((slcp + sfid + scls) / 3)
    lcp := slcp
    fid := sfid
    cls := scls
    isLowEndDevice := s.isLowEndDevice
    recommendations := getRecommendations slcp sfid scls s.isLowEndDevice }

/-- `getMetrics()` (part_011 lines 475-477): returns `this.metrics` itself,
without any copy. -/
def getMetrics (s : MobState) : List (String × MEntry) :=
  s.metrics

/-- Mobile CLS callback (part_011 lines 83-100): same flagged-entry
exclusion as the desktop variant; the total is written to `metrics.cls`
and logged once per batch, after the loop. -/
def clsBatch (clsValue : ℚ) (entries : List PerfMon.LayoutShiftEntry) : ℚ :=
  entries.foldl PerfMon.clsStep clsValue

end MobilePerfMon

namespace HeapModel

/-! ## Reference semantics of the desktop store, for the snapshot claim

`getMetrics()` (part_009 lines 765-767) returns `{ ...this.metrics }`: a
fresh top-level object holding the same property values.  Series
properties are array references, so a snapshot and the store share the
underlying arrays.  To express that, this refinement gives arrays explicit
addresses: `heap` maps an address to array contents, the metrics object
and every snapshot are address tables keyed by metric name.  Only series
entries are represented — they are the entries the snapshot claim is
about. -/

/-- Address-table read (`obj[name]`). -/
def lookupRef : List (String × Nat) → String → Option Nat
  | [], _ => none
  | (k, r) :: rest, n => if k = n then some r else lookupRef rest n

/-- Address-table write (`obj[name] = ref`). -/
def setRef : List (String × Nat) → String → Nat → List (String × Nat)
  | [], n, r => [(n, r)]
  | (k, w) :: rest, n, r => if k = n then (n, r) :: rest else (k, w) :: setRef rest n r

/-- Store state with explicit array addresses: the metrics object maps
names to array addresses; the heap holds the array contents. -/
structure HState where
  metrics : List (String × Nat)
  heap : List (List PerfMon.Sample)
  deriving DecidableEq, Repr

/-- The empty store: no properties, no allocated arrays. -/
def hEmpty : HState :=
  { metrics := [], heap := [] }

/-- Contents of the array at address `r`. -/
def readArr (h : List (List PerfMon.Sample)) (r : Nat) : List PerfMon.Sample :=
  h.getD r []

/-- `reportMetric` under reference semantics: an existing series array is
mutated in place (its address is unchanged); a missing entry allocates a
fresh array, stores its address in the metrics object and pushes into it. -/
def reportMetric (name : String) (value : JsVal) (now : ℤ) (st : HState) :
    HState :=
  match lookupRef st.metrics name with
  | some r =>
      { st with heap := st.heap.set r (boundedPush 100 (readArr st.heap r) ⟨value, now⟩) }
  | none =>
      { metrics := setRef st.metrics name st.heap.length
        heap := st.heap ++ [boundedPush 100 [] ⟨value, now⟩] }

/-- `getMetrics()`: the shallow `{ ...this.metrics }` copy.  The returned
table is an independent copy of the key-to-address entries; the addresses
still point into the live heap. -/
def getMetrics (st : HState) : List (String × Nat) :=
  st.metrics

/-- Reading one series out of a snapshot against the current heap: this is
what a consumer holding the snapshot sees at access time. -/
def readSnapshot (snap : List (String × Nat)) (h : List (List PerfMon.Sample))
    (k : String) : Option (List PerfMon.Sample) :=
  (lookupRef snap k).map (readArr h)

/-- Mutating a snapshot's series (`snapshot[k].push(x)`): the write goes
through the shared address into the same heap the store uses. -/
def pushThroughSnapshot (snap : List (String × Nat))
    (h : List (List PerfMon.Sample)) (k : String) (x : PerfMon.Sample) :
    List (List PerfMon.Sample) :=
  match lookupRef snap k with
  | some r => h.set r (readArr h r ++ [x])
  | none => h

end HeapModel

/-! ## Concrete inputs used by the claims -/

/-- A mobile monitor whose only recorded vital is `lcp = 7000` ms
(`fid` and `cls` absent), on a non-low-end device. -/
def mobLcp7000 : MobilePerfMon.MobState :=
  { MobilePerfMon.freshMob false false with
    metrics := [("lcp", .scalar 7000)] }

/-- A mobile host with `PerformanceObserver` available and every other
capability absent. -/
def mobEnvPerfOnly : MobilePerfMon.MobEnv :=
  { performanceObserver := true
    connection := none
    getBattery := false
    memoryApi := false
    intersectionApi := false }

/-- The 150 `record` calls of the bounded-growth scenario: key `"lcp"`,
values `1..150`, in call order. -/
def lcpScenarioInput : List (JsVal × ℤ) :=
  (List.range' 1 150).map fun i => (JsVal.num i, 0)

/-- The series the scenario must leave behind: values `51..150` in order. -/
def lcpScenarioExpected : List PerfMon.Sample :=
  (List.range' 51 100).map fun i => PerfMon.Sample.mk (JsVal.num i) 0

/-- A heap-model store holding one series: a single `LCP` sample recorded
into the empty store. -/
def hLcp1 : HeapModel.HState :=
  HeapModel.reportMetric "LCP" (JsVal.num 1) 10 HeapModel.hEmpty

/-! ## Helper lemmas -/

theorem length_lastN {α : Type} (n : Nat) (l : List α) :
    (lastN n l).length = l.length - (l.length - n) := by
  simp [lastN]

theorem lastN_of_le {α : Type} {n : Nat} {l : List α} (h : l.length ≤ n) :
    lastN n l = l := by
  simp [lastN, Nat.sub_eq_zero_of_le h]

theorem boundedPush_lastN {α : Type} (cap : Nat) (hcap : 0 < cap)
    (l : List α) (x : α) :
    boundedPush cap (lastN cap l) x = lastN cap (l ++ [x]) := by
  by_cases h : cap ≤ l.length
  · have hlen : (lastN cap l).length = cap := by
      rw [length_lastN]; omega
    have h3 : l.length - cap + 1 - l.length = 0 := by omega
    rw [boundedPush, if_pos hlen.ge]
    show (l.drop (l.length - cap)).drop 1 ++ [x] = lastN cap (l ++ [x])
    calc (l.drop (l.length - cap)).drop 1 ++ [x]
        = l.drop (l.length - cap + 1) ++ [x] := by
            rw [List.drop_drop]
      _ = (l ++ [x]).drop (l.length - cap + 1) := by
            rw [List.drop_append_eq_append_drop, h3, List.drop_zero]
      _ = lastN cap (l ++ [x]) := by
            rw [lastN]; congr 1; simp; omega
  · have hl : l.length < cap := lt_of_not_ge h
    have hx : lastN cap l = l := lastN_of_le hl.le
    have hlen : (lastN cap l).length = l.length := by rw [hx]
    rw [boundedPush, if_neg (by omega), hx,
      lastN_of_le (by simp; omega)]

theorem foldl_boundedPush {α : Type} (cap : Nat) (hcap : 0 < cap)
    (xs : List α) :
    ∀ l : List α, xs.foldl (boundedPush cap) (lastN cap l) = lastN cap (l ++ xs) := by
  induction xs with
  | nil => intro l; simp
  | cons x xs ih =>
    intro l
    rw [List.foldl_cons, boundedPush_lastN cap hcap, ih (l ++ [x])]
    simp

theorem foldl_boundedPush_nil {α : Type} (cap : Nat) (hcap : 0 < cap)
    (xs : List α) :
    xs.foldl (boundedPush cap) [] = lastN cap xs := by
  have h := foldl_boundedPush cap hcap xs []
  simpa [lastN] using h

theorem length_foldl_boundedPush {α : Type} (cap : Nat) (hcap : 0 < cap)
    (xs : List α) (h : cap ≤ xs.length) :
    (xs.foldl (boundedPush cap) []).length = cap := by
  rw [foldl_boundedPush_nil cap hcap, length_lastN]; omega

namespace PerfMon

theorem lookupEntry_setEntry_self (m : List (String × MetricEntry))
    (k : String) (v : MetricEntry) :
    lookupEntry (setEntry m k v) k = some v := by
  induction m with
  | nil => simp [setEntry, lookupEntry]
  | cons h t ih =>
    by_cases hk : h.1 = k
    · simp [setEntry, hk, lookupEntry]
    · simp [setEntry, hk, lookupEntry, ih]

theorem reportMetric_seriesAt (k : String) (v : JsVal) (t : ℤ)
    (s : MonitorState) (h : entryOk s k) :
    seriesAt (reportMetric k v t s) k = boundedPush 100 (seriesAt s k) ⟨v, t⟩ ∧
      entryOk (reportMetric k v t s) k := by
  unfold entryOk at h
  unfold reportMetric seriesAt entryOk
  cases hcur : lookupEntry s.metrics k with
  | none => simp [hcur, lookupEntry_setEntry_self]
  | some e =>
    cases e with
    | series l => simp [hcur, lookupEntry_setEntry_self]
    | scalar w =>
      rw [hcur] at h
      simp [hcur, h, lookupEntry_setEntry_self]

theorem recordAll_seriesAt (k : String) (vs : List (JsVal × ℤ)) :
    ∀ s : MonitorState, entryOk s k →
      seriesAt (recordAll k vs s) k =
        (vs.map fun p => Sample.mk p.1 p.2).foldl (boundedPush 100) (seriesAt s k) ∧
      entryOk (recordAll k vs s) k := by
  induction vs with
  | nil => intro s hs; exact ⟨rfl, hs⟩
  | cons p vs ih =>
    intro s hs
    have hstep := reportMetric_seriesAt k p.1 p.2 s hs
    have hrest := ih (reportMetric k p.1 p.2 s) hstep.2
    refine ⟨?_, hrest.2⟩
    rw [recordAll, List.foldl_cons]
    rw [recordAll] at hrest
    rw [hrest.1, hstep.1, List.map_cons, List.foldl_cons]

theorem recordAll_empty_lastN (k : String) (vs : List (JsVal × ℤ)) :
    seriesAt (recordAll k vs emptyMonitor) k =
      lastN 100 (vs.map fun p => Sample.mk p.1 p.2) := by
  have h0 : entryOk emptyMonitor k := by trivial
  have h := (recordAll_seriesAt k vs emptyMonitor h0).1
  rw [h]
  show (vs.map fun p => Sample.mk p.1 p.2).foldl (boundedPush 100) [] = _
  exact foldl_boundedPush_nil 100 (by omega) _

theorem foldl_handleResourceEntry (rs : List PerfResourceEntry) :
    ∀ init : List ResourceRec,
      rs.foldl handleResourceEntry init =
        ((rs.filter isImgOrVideo).map mkResourceRec).foldl (boundedPush 50) init := by
  induction rs with
  | nil => intro init; rfl
  | cons e rs ih =>
    intro init
    by_cases he : isImgOrVideo e
    · rw [List.foldl_cons, handleResourceEntry, if_pos he,
        List.filter_cons_of_pos he, List.map_cons, List.foldl_cons, ih]
    · rw [List.foldl_cons, handleResourceEntry, if_neg he,
        List.filter_cons_of_neg (by simpa using he), ih]

theorem clsEntryStep_fst (now : ℤ) (p : ℚ × MonitorState) (e : LayoutShiftEntry) :
    (clsEntryStep now p e).1 = clsStep p.1 e := by
  unfold clsEntryStep clsStep
  by_cases he : e.hadRecentInput <;> simp [he]

theorem clsCallback_fst (now : ℤ) (entries : List LayoutShiftEntry) :
    ∀ p : ℚ × MonitorState,
      (clsCallback now p entries).1 = entries.foldl clsStep p.1 := by
  induction entries with
  | nil => intro p; rfl
  | cons e es ih =>
    intro p
    simp only [clsCallback, List.foldl_cons] at ih ⊢
    rw [ih, clsEntryStep_fst]

theorem foldl_clsStep_sum (entries : List LayoutShiftEntry) :
    ∀ c : ℚ,
      entries.foldl clsStep c =
        c + ((entries.filter fun e => !e.hadRecentInput).map LayoutShiftEntry.value).sum := by
  induction entries with
  | nil => intro c; simp
  | cons e es ih =>
    intro c
    by_cases he : e.hadRecentInput
    · rw [List.foldl_cons, clsStep, if_pos he,
        List.filter_cons_of_neg (by simp [he]), ih]
    · rw [List.foldl_cons, clsStep, if_neg he,
        List.filter_cons_of_pos (by simp [he]), List.map_cons, List.sum_cons, ih]
      ring

end PerfMon

/-! ## Claims -/

/-- C1, counterexample.  The claim asserts that for a snapshot containing
only `lcp = 7000` the overall score is 25 (the mean over the single
present vital).  On the code the overall score of that snapshot is not 25:
`getFIDScore` and `getCLSScore` read `this.metrics.X || 0`, so the absent
vitals enter the mean as value 0 (score 100). -/
theorem c1_counterexample :
    (MobilePerfMon.getPerformanceScore mobLcp7000).overall ≠ 25 := by
  have h1 : MobilePerfMon.getLCPScore mobLcp7000 = 25 := by decide
  have h2 : MobilePerfMon.getFIDScore mobLcp7000 = 100 := by decide
  have hz : MobilePerfMon.scalarOrZero mobLcp7000 "cls" = 0 := by decide
  have h3 : MobilePerfMon.getCLSScore mobLcp7000 = 100 := by
    simp only [MobilePerfMon.getCLSScore, hz]
    norm_num
  show MobilePerfMon.jsRound
      ((MobilePerfMon.getLCPScore mobLcp7000 + MobilePerfMon.getFIDScore mobLcp7000
        + MobilePerfMon.getCLSScore mobLcp7000) / 3) ≠ 25
  rw [h1, h2, h3]
  norm_num [MobilePerfMon.jsRound]

/-- C1, amended.  The Scorer averages over all three vitals always
(`Object.keys(scores).length = 3`); a vital with no recorded sample
defaults to the value 0 and therefore scores 100 rather than being
excluded.  For a snapshot containing only `lcp = 7000`,
`getPerformanceScore` yields an lcp score of 25, an overall score of
`Math.round((25 + 100 + 100) / 3) = 75`, and a recommendation list
containing exactly the LCP-specific hint. -/
theorem c1_scorer_absent_vitals :
    (MobilePerfMon.getPerformanceScore mobLcp7000).lcp = 25 ∧
    (MobilePerfMon.getPerformanceScore mobLcp7000).overall = 75 ∧
    (MobilePerfMon.getPerformanceScore mobLcp7000).recommendations
      = ["Optimize images and reduce render-blocking resources"] ∧
    (∀ m : MobilePerfMon.MobState,
      MobilePerfMon.lookupM m.metrics "lcp" = none → MobilePerfMon.getLCPScore m = 100) ∧
    (∀ m : MobilePerfMon.MobState,
      MobilePerfMon.lookupM m.metrics "fid" = none → MobilePerfMon.getFIDScore m = 100) ∧
    (∀ m : MobilePerfMon.MobState,
      MobilePerfMon.lookupM m.metrics "cls" = none → MobilePerfMon.getCLSScore m = 100) := by
  have h1 : MobilePerfMon.getLCPScore mobLcp7000 = 25 := by decide
  have h2 : MobilePerfMon.getFIDScore mobLcp7000 = 100 := by decide
  have hz : MobilePerfMon.scalarOrZero mobLcp7000 "cls" = 0 := by decide
  have h3 : MobilePerfMon.getCLSScore mobLcp7000 = 100 := by
    simp only [MobilePerfMon.getCLSScore, hz]
    norm_num
  refine ⟨h1, ?_, ?_, ?_, ?_, ?_⟩
  · show MobilePerfMon.jsRound
        ((MobilePerfMon.getLCPScore mobLcp7000 + MobilePerfMon.getFIDScore mobLcp7000
          + MobilePerfMon.getCLSScore mobLcp7000) / 3) = 75
    rw [h1, h2, h3]
    norm_num [MobilePerfMon.jsRound]
  · show MobilePerfMon.getRecommendations (MobilePerfMon.getLCPScore mobLcp7000)
        (MobilePerfMon.getFIDScore mobLcp7000) (MobilePerfMon.getCLSScore mobLcp7000)
        mobLcp7000.isLowEndDevice = _
    rw [h1, h2, h3]
    norm_num [MobilePerfMon.getRecommendations]
    decide
  · intro m h
    unfold MobilePerfMon.getLCPScore MobilePerfMon.scalarOrZero
    rw [h]
    norm_num
  · intro m h
    unfold MobilePerfMon.getFIDScore MobilePerfMon.scalarOrZero
    rw [h]
    norm_num
  · intro m h
    unfold MobilePerfMon.getCLSScore MobilePerfMon.scalarOrZero
    rw [h]
    norm_num

/-- C1, witness: a fresh mobile store records no `lcp`, and the amended
theorem gives it an LCP score of 100. -/
theorem c1_scorer_absent_vitals_witness :
    MobilePerfMon.lookupM (MobilePerfMon.freshMob false false).metrics "lcp" = none ∧
    MobilePerfMon.getLCPScore (MobilePerfMon.freshMob false false) = 100 :=
  ⟨rfl, c1_scorer_absent_vitals.2.2.2.1 (MobilePerfMon.freshMob false false) rfl⟩

/-- C2: bounded growth.  For every key, recording more than 100 samples via
`reportMetric` leaves a series of length exactly 100 holding exactly the
most recent 100 samples in call order; the resource handler keeps exactly
the most recent 50 image/video records; the mobile `logMetric` series
update is the same shift-then-push at its 50-entry bound; and the concrete
scenario — 150 samples under `"lcp"` with values `1..150` — leaves the
100 values `51..150` in order. -/
theorem c2_bounded_growth :
    (∀ (k : String) (vs : List (JsVal × ℤ)), 100 < vs.length →
        PerfMon.seriesAt (PerfMon.recordAll k vs PerfMon.emptyMonitor) k
            = lastN 100 (vs.map fun p => PerfMon.Sample.mk p.1 p.2) ∧
        (PerfMon.seriesAt (PerfMon.recordAll k vs PerfMon.emptyMonitor) k).length = 100) ∧
    (∀ rs : List PerfMon.PerfResourceEntry, 50 < (rs.filter PerfMon.isImgOrVideo).length →
        rs.foldl PerfMon.handleResourceEntry []
            = lastN 50 ((rs.filter PerfMon.isImgOrVideo).map PerfMon.mkResourceRec) ∧
        (rs.foldl PerfMon.handleResourceEntry []).length = 50) ∧
    (∀ xs : List MobilePerfMon.MobSample, 50 < xs.length →
        xs.foldl (boundedPush 50) [] = lastN 50 xs ∧
        (xs.foldl (boundedPush 50) []).length = 50) ∧
    PerfMon.seriesAt (PerfMon.recordAll "lcp" lcpScenarioInput PerfMon.emptyMonitor) "lcp"
        = lcpScenarioExpected ∧
    lcpScenarioExpected.length = 100 := by
  refine ⟨?_, ?_, ?_, by decide, by decide⟩
  · intro k vs h
    have heq := PerfMon.recordAll_empty_lastN k vs
    refine ⟨heq, ?_⟩
    rw [heq, length_lastN, List.length_map]
    omega
  · intro rs h
    have heq := PerfMon.foldl_handleResourceEntry rs []
    rw [heq, foldl_boundedPush_nil 50 (by omega)]
    refine ⟨rfl, ?_⟩
    rw [length_lastN, List.length_map]
    omega
  · intro xs h
    rw [foldl_boundedPush_nil 50 (by omega)]
    refine ⟨rfl, ?_⟩
    rw [length_lastN]
    omega

/-- C2, witness: the scenario input has 151 > 100 calls... exactly 150
calls, and the general bound applied to it matches the `lastN` suffix. -/
theorem c2_bounded_growth_witness :
    100 < lcpScenarioInput.length ∧
    PerfMon.seriesAt (PerfMon.recordAll "lcp" lcpScenarioInput PerfMon.emptyMonitor) "lcp"
        = lastN 100 (lcpScenarioInput.map fun p => PerfMon.Sample.mk p.1 p.2) :=
  ⟨by decide, (c2_bounded_growth.1 "lcp" lcpScenarioInput (by decide)).1⟩

/-- C3, counterexample.  The claim asserts that after `destroy()` the
record path leaves the Metric Store in its post-destroy empty state.  On
the code, `reportMetric` after `destroy()` records normally: the cleared
store is not left empty. -/
theorem c3_counterexample :
    (PerfMon.reportMetric "LCP" (JsVal.num 5) 0
        (PerfMon.destroy PerfMon.emptyMonitor)).metrics ≠ [] := by
  decide

/-- C3, amended.  After `destroy()` the record path raises no exception,
but it is not a no-op: the sample is recorded into the cleared store.  And
the destroyed instance is reusable: `destroy()` resets `isInitialized` to
`false`, so a later `init()` runs the full setup again and returns the
instance to the Running state. -/
theorem c3_record_after_destroy :
    ∀ (k : String) (v : JsVal) (t : ℤ) (s : PerfMon.MonitorState)
      (env : PerfMon.HostEnv),
      (PerfMon.destroy s).metrics = [] ∧
      (PerfMon.reportMetric k v t (PerfMon.destroy s)).metrics
          = [(k, PerfMon.MetricEntry.series [PerfMon.Sample.mk v t])] ∧
      (PerfMon.destroy s).isInitialized = false ∧
      (PerfMon.init env (PerfMon.destroy s)).isInitialized = true := by
  intro k v t s env
  exact ⟨rfl, rfl, rfl, rfl⟩

/-- C4, counterexample.  The claim asserts that subsequent record calls
never change a previously returned snapshot.  On the code, `getMetrics()`
is the shallow copy `{ ...this.metrics }`: the snapshot shares the series
arrays with the store, so a later `reportMetric` on an existing key is
visible through the snapshot. -/
theorem c4_counterexample :
    HeapModel.readSnapshot (HeapModel.getMetrics hLcp1)
        (HeapModel.reportMetric "LCP" (JsVal.num 2) 20 hLcp1).heap "LCP"
      ≠ HeapModel.readSnapshot (HeapModel.getMetrics hLcp1) hLcp1.heap "LCP" := by
  decide

/-- C4, amended.  `getMetrics()` returns a shallow copy: the top-level
key-to-series table is copied, so a key recorded later under a new name
does not appear in an old snapshot, but the per-key series arrays are
shared by reference — a later record call to an existing key changes what
the old snapshot reads, and pushing into a snapshot's series changes what
the store reads.  (The mobile variant returns `this.metrics` itself with
no copy at all.) -/
theorem c4_snapshot_sharing :
    HeapModel.readSnapshot (HeapModel.getMetrics hLcp1)
        (HeapModel.reportMetric "LCP" (JsVal.num 2) 20 hLcp1).heap "LCP"
      = some [PerfMon.Sample.mk (JsVal.num 1) 10, PerfMon.Sample.mk (JsVal.num 2) 20] ∧
    HeapModel.readSnapshot (HeapModel.getMetrics hLcp1) hLcp1.heap "LCP"
      = some [PerfMon.Sample.mk (JsVal.num 1) 10] ∧
    HeapModel.readSnapshot (HeapModel.getMetrics hLcp1)
        (HeapModel.reportMetric "FID" (JsVal.num 3) 30 hLcp1).heap "FID" = none ∧
    HeapModel.lookupRef (HeapModel.reportMetric "FID" (JsVal.num 3) 30 hLcp1).metrics "FID"
      = some 1 ∧
    HeapModel.readSnapshot hLcp1.metrics
        (HeapModel.pushThroughSnapshot (HeapModel.getMetrics hLcp1) hLcp1.heap "LCP"
          (PerfMon.Sample.mk (JsVal.num 9) 90)) "LCP"
      = some [PerfMon.Sample.mk (JsVal.num 1) 10, PerfMon.Sample.mk (JsVal.num 9) 90] ∧
    (∀ m : MobilePerfMon.MobState, MobilePerfMon.getMetrics m = m.metrics) := by
  exact ⟨by decide, by decide, by decide, by decide, by decide, fun m => rfl⟩

/-- C5, counterexample.  The claim asserts that a record call with a
non-finite value leaves the Metric Store unchanged.  On the code,
`reportMetric` performs no finiteness validation: a `NaN` sample is
appended like any other. -/
theorem c5_counterexample :
    (PerfMon.reportMetric "x" JsVal.nan 0 PerfMon.emptyMonitor).metrics
      ≠ PerfMon.emptyMonitor.metrics := by
  decide

/-- C5, amended.  `reportMetric` never throws — its body is wrapped in
`try`/`catch`, and even the internal `TypeError` raised by pushing onto a
truthy scalar entry leaves the store exactly as it was — but samples are
not validated: a non-finite (`NaN`, `Infinity`) or `undefined` value is
appended to the series like any other value, so the store does change. -/
theorem c5_record_no_validation :
    (∀ (k : String) (v : JsVal) (t : ℤ),
        (PerfMon.reportMetric k v t PerfMon.emptyMonitor).metrics
          = [(k, PerfMon.MetricEntry.series [PerfMon.Sample.mk v t])]) ∧
    (∀ (name : String) (v : JsVal) (t : ℤ) (w : JsVal) (s : PerfMon.MonitorState),
        PerfMon.lookupEntry s.metrics name = some (PerfMon.MetricEntry.scalar w) →
        jsTruthy w = true →
        PerfMon.reportMetric name v t s = s) := by
  constructor
  · intro k v t
    rfl
  · intro name v t w s hl hw
    unfold PerfMon.reportMetric
    rw [hl]
    simp [hw]

/-- C5, witness: a `NaN` sample is stored into the empty store, and a
record call on a key holding the truthy scalar 5 is swallowed without any
state change. -/
theorem c5_record_no_validation_witness :
    (PerfMon.reportMetric "y" JsVal.nan 0 PerfMon.emptyMonitor).metrics
        = [("y", PerfMon.MetricEntry.series [PerfMon.Sample.mk JsVal.nan 0])] ∧
    PerfMon.reportMetric "d" (JsVal.num 1) 0
        { PerfMon.emptyMonitor with metrics := [("d", PerfMon.MetricEntry.scalar (JsVal.num 5))] }
      = { PerfMon.emptyMonitor with metrics := [("d", PerfMon.MetricEntry.scalar (JsVal.num 5))] } :=
  ⟨c5_record_no_validation.1 "y" JsVal.nan 0,
   c5_record_no_validation.2 "d" (JsVal.num 1) 0 (JsVal.num 5)
     { PerfMon.emptyMonitor with metrics := [("d", PerfMon.MetricEntry.scalar (JsVal.num 5))] }
     rfl (by decide)⟩

/-- C6: CLS exclusion.  A layout-shift entry flagged `hadRecentInput`
leaves both the closure variable `clsValue` and the monitor state exactly
as they were, in both variants; and after any batch sequence the running
total equals the initial value plus the sum of the values of exactly the
non-flagged entries, in processing order. -/
theorem c6_cls_exclusion :
    (∀ (now : ℤ) (p : ℚ × PerfMon.MonitorState) (e : PerfMon.LayoutShiftEntry),
        e.hadRecentInput = true → PerfMon.clsEntryStep now p e = p) ∧
    (∀ (cls : ℚ) (e : PerfMon.LayoutShiftEntry),
        e.hadRecentInput = true → PerfMon.clsStep cls e = cls) ∧
    (∀ (now : ℤ) (p : ℚ × PerfMon.MonitorState)
        (entries : List PerfMon.LayoutShiftEntry),
        (PerfMon.clsCallback now p entries).1
          = p.1 + ((entries.filter fun e => !e.hadRecentInput).map
              PerfMon.LayoutShiftEntry.value).sum) ∧
    (∀ (clsValue : ℚ) (entries : List PerfMon.LayoutShiftEntry),
        MobilePerfMon.clsBatch clsValue entries
          = clsValue + ((entries.filter fun e => !e.hadRecentInput).map
              PerfMon.LayoutShiftEntry.value).sum) := by
  refine ⟨?_, ?_, ?_, ?_⟩
  · intro now p e he
    unfold PerfMon.clsEntryStep
    rw [he]
    simp
  · intro cls e he
    unfold PerfMon.clsStep
    rw [he]
    simp
  · intro now p entries
    rw [PerfMon.clsCallback_fst, PerfMon.foldl_clsStep_sum]
  · intro clsValue entries
    rw [MobilePerfMon.clsBatch, PerfMon.foldl_clsStep_sum]

/-- C6, witness: a flagged shift of value 3 changes neither the pair state
nor the running total 5. -/
theorem c6_cls_exclusion_witness :
    PerfMon.clsEntryStep 0 (5, PerfMon.emptyMonitor) (PerfMon.LayoutShiftEntry.mk 3 true)
        = (5, PerfMon.emptyMonitor) ∧
    PerfMon.clsStep 5 (PerfMon.LayoutShiftEntry.mk 3 true) = 5 :=
  ⟨c6_cls_exclusion.1 0 (5, PerfMon.emptyMonitor) (PerfMon.LayoutShiftEntry.mk 3 true) rfl,
   c6_cls_exclusion.2.1 5 (PerfMon.LayoutShiftEntry.mk 3 true) rfl⟩

/-- C7, counterexample.  The claim asserts that a second `init()` on a
running collector creates no additional observer subscriptions.  The
mobile variant's `init()` has no `isInitialized` guard: with
`PerformanceObserver` available, a second `init()` subscribes the three
Core Web Vitals observers again. -/
theorem c7_counterexample :
    MobilePerfMon.init mobEnvPerfOnly
        (MobilePerfMon.init mobEnvPerfOnly (MobilePerfMon.freshMob false false))
      ≠ MobilePerfMon.init mobEnvPerfOnly (MobilePerfMon.freshMob false false) := by
  decide

/-- C7, amended.  The desktop collector's `init()` is idempotent: it is
guarded by `this.isInitialized`, so a second call on a running collector
is a no-op and `init` composed with itself equals one `init`.  The mobile
variant's `init()` has no such guard: a second call on an already-running
mobile collector doubles the observer subscriptions (3 become 6). -/
theorem c7_init_idempotent_desktop_only :
    (∀ (env : PerfMon.HostEnv) (s : PerfMon.MonitorState),
        s.isInitialized = true → PerfMon.init env s = s) ∧
    (∀ (env : PerfMon.HostEnv) (s : PerfMon.MonitorState),
        (PerfMon.init env s).isInitialized = true) ∧
    (∀ (env : PerfMon.HostEnv) (s : PerfMon.MonitorState),
        PerfMon.init env (PerfMon.init env s) = PerfMon.init env s) ∧
    (MobilePerfMon.init mobEnvPerfOnly
        (MobilePerfMon.init mobEnvPerfOnly (MobilePerfMon.freshMob false false))).observers.length = 6 ∧
    (MobilePerfMon.init mobEnvPerfOnly (MobilePerfMon.freshMob false false)).observers.length = 3 := by
  have hguard : ∀ (env : PerfMon.HostEnv) (s : PerfMon.MonitorState),
      s.isInitialized = true → PerfMon.init env s = s := by
    intro env s h
    unfold PerfMon.init
    rw [h]
    simp
  have hflag : ∀ (env : PerfMon.HostEnv) (s : PerfMon.MonitorState),
      (PerfMon.init env s).isInitialized = true := by
    intro env s
    unfold PerfMon.init
    by_cases h : s.isInitialized
    · rw [if_pos h]
      exact h
    · rw [if_neg h]
  refine ⟨hguard, hflag, ?_, by decide, by decide⟩
  intro env s
  exact hguard env (PerfMon.init env s) (hflag env s)

/-- C7, witness: a collector whose flag is set is left untouched by
`init`. -/
theorem c7_init_idempotent_desktop_only_witness :
    ({ PerfMon.emptyMonitor with isInitialized := true } : PerfMon.MonitorState).isInitialized
        = true ∧
    PerfMon.init (PerfMon.HostEnv.mk true true true)
        { PerfMon.emptyMonitor with isInitialized := true }
      = { PerfMon.emptyMonitor with isInitialized := true } :=
  ⟨rfl, c7_init_idempotent_desktop_only.1 (PerfMon.HostEnv.mk true true true)
    { PerfMon.emptyMonitor with isInitialized := true } rfl⟩

/-- C8: idempotent destroy.  In both variants a second `destroy()`
produces exactly the state of the first: the desktop second call performs
no effect at all (nothing left to disconnect, clear or run), and after
either call the store is empty and the observer list, cleanup-function
list and interval handles are cleared.  Both `destroy` embeddings are
total functions — every risky call in the source is wrapped in its own
`try`/`catch` — so no exception is raised. -/
theorem c8_destroy_idempotent :
    ∀ (s : PerfMon.MonitorState) (m : MobilePerfMon.MobState),
      PerfMon.destroy (PerfMon.destroy s) = PerfMon.destroy s ∧
      (PerfMon.destroyRun (PerfMon.destroy s)).2 = [] ∧
      (PerfMon.destroy s).metrics = [] ∧
      (PerfMon.destroy s).observers = [] ∧
      (PerfMon.destroy s).cleanupFunctions = [] ∧
      (PerfMon.destroy s).memoryCheckInterval = none ∧
      (PerfMon.destroy s).frameRateMonitor = none ∧
      MobilePerfMon.destroy (MobilePerfMon.destroy m) = MobilePerfMon.destroy m ∧
      (MobilePerfMon.destroy m).metrics = [] ∧
      (MobilePerfMon.destroy m).observers = [] ∧
      (MobilePerfMon.destroy m).cleanupFunctions = [] ∧
      (MobilePerfMon.destroy m).memoryCheckInterval = none ∧
      (MobilePerfMon.destroy m).batteryCheckInterval = none := by
  intro s m
  exact ⟨rfl, rfl, rfl, rfl, rfl, rfl, rfl, rfl, rfl, rfl, rfl, rfl, rfl⟩

/-- C9: Reporter failure isolation.  Every delivery runs against the
5000 ms abort budget (`analyticsTimeoutMs`), and for every fetch outcome —
resolved response of any status, network error, or the timeout's
`AbortError` — `sendToAnalytics` returns the Metric Store state unchanged
and logs at most one warning; it is a total function, so no exception
reaches the caller of `reportMetric`. -/
theorem c9_reporter_swallows_failures :
    PerfMon.analyticsTimeoutMs = 5000 ∧
    ∀ (name : String) (value : JsVal) (env : PerfMon.ReporterEnv)
      (s : PerfMon.MonitorState),
      (PerfMon.sendToAnalytics name value env s).1 = s ∧
      (PerfMon.sendToAnalytics name value env s).2.length ≤ 1 := by
  refine ⟨rfl, ?_⟩
  intro name value env s
  simp only [PerfMon.sendToAnalytics]
  constructor
  · split
    · rfl
    · split
      · rfl
      · rfl
  · split
    · simp
    · split
      · simp
      · simp

/-- C10: `measure` stores a plain scalar.  For every metric name and every
wrapped call returning normally with positive duration, `measure` (and
`measureAsync`) returns the wrapped result unchanged and leaves
`this.metrics[name]` holding the plain scalar duration — replacing any
series previously stored under that name — while the inner
`reportMetric(name, duration)` call appends nothing: the truthy scalar
entry makes its `.push` throw, the `catch` swallows it, and no series
exists under the name afterwards. -/
theorem c10_measure_scalar_overwrite :
    ∀ {α : Type} (name : String) (dur : ℚ), 0 < dur →
      ∀ (res : α) (now : ℤ) (s : PerfMon.MonitorState),
        (PerfMon.measure name dur res now s).1 = res ∧
        PerfMon.lookupEntry (PerfMon.measure name dur res now s).2.metrics name
            = some (PerfMon.MetricEntry.scalar (JsVal.num dur)) ∧
        PerfMon.seriesAt (PerfMon.measure name dur res now s).2 name = [] ∧
        PerfMon.measureAsync name dur res now s = PerfMon.measure name dur res now s := by
  intro α name dur hdur res now s
  have hl : PerfMon.lookupEntry
      (PerfMon.setEntry s.metrics name (PerfMon.MetricEntry.scalar (JsVal.num dur))) name
      = some (PerfMon.MetricEntry.scalar (JsVal.num dur)) :=
    PerfMon.lookupEntry_setEntry_self _ _ _
  have ht : jsTruthy (JsVal.num dur) = true := by
    simp [jsTruthy]
    exact ne_of_gt hdur
  have hrep : PerfMon.reportMetric name (JsVal.num dur) now
      { s with
        metrics := PerfMon.setEntry s.metrics name
                     (PerfMon.MetricEntry.scalar (JsVal.num dur)) }
      = { s with
          metrics := PerfMon.setEntry s.metrics name
                       (PerfMon.MetricEntry.scalar (JsVal.num dur)) } := by
    unfold PerfMon.reportMetric
    dsimp only
    rw [hl]
    simp [ht]
  refine ⟨rfl, ?_, ?_, rfl⟩
  · show PerfMon.lookupEntry (PerfMon.reportMetric name (JsVal.num dur) now _).metrics name = _
    rw [hrep]
    exact hl
  · show PerfMon.seriesAt (PerfMon.reportMetric name (JsVal.num dur) now _) name = []
    rw [hrep]
    unfold PerfMon.seriesAt
    rw [hl]

/-- C10, witness: measuring a 5 ms call returning 42 stores the scalar 5
under the name and returns 42. -/
theorem c10_measure_scalar_overwrite_witness :
    (0:ℚ) < 5 ∧
    (PerfMon.measure "op" 5 (42:ℕ) 0 PerfMon.emptyMonitor).1 = 42 ∧
    PerfMon.lookupEntry (PerfMon.measure "op" 5 (42:ℕ) 0 PerfMon.emptyMonitor).2.metrics "op"
      = some (PerfMon.MetricEntry.scalar (JsVal.num 5)) :=
  ⟨by norm_num,
   (c10_measure_scalar_overwrite "op" 5 (by norm_num) (42:ℕ) 0 PerfMon.emptyMonitor).1,
   (c10_measure_scalar_overwrite "op" 5 (by norm_num) (42:ℕ) 0 PerfMon.emptyMonitor).2.1⟩
